import Mathlib

/-!
# Verification of the consultation-page client (mediate)

Shallow embedding of the client logic in
`frontend/src/app/consultation/page.tsx`:

* the per-sample PCM encoder and the send-side backpressure check of
  `setupAudioProcessing`;
* the WebSocket message dispatcher installed by `setupWebSocket`
  (`newWs.onmessage`), acting on the page state
  (`transcript`, `analysis`, `error`);
* the close handler (`newWs.onclose`) and the normal-code close performed
  by `handleStop`;
* the connection wait loop of `handleRecord` and its fallback to
  `simulateTranscription`.

Machine arithmetic is modelled over `ℚ`/`ℤ`: audio samples are rationals,
the `Int16Array` element conversion (ECMAScript ToInt16: truncation toward
zero, then wrap modulo 2^16) is made explicit.  JSON values are modelled by
the inductive `JVal`; JSON numbers appearing in dispatcher messages are
integers (the only numeric field the dispatcher reads is the speaker index).
-/

namespace Mediate

/-! ## PCM sample encoding (`setupAudioProcessing`)

The source, `page.tsx` lines 760-763:

```
const pcmData = new Int16Array(inputData.length);
for (let i = 0; i < inputData.length; i++) {
  pcmData[i] = Math.max(-1, Math.min(1, inputData[i])) * 0x7FFF;
}
```

Storing a JS number into an `Int16Array` performs ECMAScript ToInt16:
truncate toward zero, then reduce modulo 2^16 into [-32768, 32767].
-/
/-- Truncation toward zero of a rational, as ECMAScript `ToIntegerOrInfinity`
does on a finite number. -/
def jsTrunc (q : ℚ) : ℤ := if 0 ≤ q then ⌊q⌋ else ⌈q⌉

/-- ECMAScript `ToInt16`: truncate toward zero, wrap modulo 2^16 into the
signed 16-bit range. -/
def toInt16 (q : ℚ) : ℤ :=
  if 32768 ≤ jsTrunc q % 65536 then jsTrunc q % 65536 - 65536
  else jsTrunc q % 65536

/-- The clamp `Math.max(-1, Math.min(1, x))` from the encoder loop. -/
def clampUnit (x : ℚ) : ℚ := max (-1) (min 1 x)

/-- The per-sample encoder of `setupAudioProcessing`:
`pcmData[i] = Math.max(-1, Math.min(1, inputData[i])) * 0x7FFF` stored into
an `Int16Array` element. -/
def encodeSample (x : ℚ) : ℤ := toInt16 (clampUnit x * 32767)

/-- Modelled from the spec wording (for comparison with `encodeSample`):
"the 16-bit encoder produces `round(clamp(x,-1,1)*32767)`, clamped to the
int16 range". -/
def specEncodeSample (x : ℚ) : ℤ :=
  max (-32768) (min 32767 (round (clampUnit x * 32767)))

/-! ## JSON values and the page state

`JVal` models the values `JSON.parse` can produce.  Numbers are modelled as
integers: the only numeric field the dispatcher reads is the speaker index.
-/
inductive JVal where
  | null
  | bool (b : Bool)
  | num (n : ℤ)
  | str (s : String)
  | arr (elems : List JVal)
  | obj (fields : List (String × JVal))

/-- Key lookup in the field list of an object (`JSON.parse` keeps one binding per
key, so first-match lookup is adequate). -/
def lookupField : List (String × JVal) → String → Option JVal
  | [], _ => none
  | (k, v) :: rest, key => if k = key then some v else lookupField rest key

/-- JS property access `v.key`; `none` models `undefined`.  Property access
on a primitive yields `undefined`; on `null` it would throw, but the
dispatcher only dereferences `data` (never `null`: `JSON.parse` of `"null"`
reaching a field access is caught by the surrounding try/catch, leaving the
state unchanged, the same outcome this model gives). -/
def getField : JVal → String → Option JVal
  | .obj fields, key => lookupField fields key
  | _, _ => none

/-- JS truthiness of a value. -/
def truthy : JVal → Bool
  | .null => false
  | .bool b => b
  | .num n => n != 0
  | .str s => s != ""
  | .arr _ => true
  | .obj _ => true

/-- JS truthiness of a possibly-absent value (`undefined` is falsy). -/
def truthyOpt : Option JVal → Bool
  | none => false
  | some v => truthy v

/-- JS `a || b` on a possibly-absent left operand. -/
def jsOr (v : Option JVal) (d : JVal) : JVal :=
  match v with
  | some x => if truthy x then x else d
  | none => d

/-- Strict comparison `v === "s"` of a possibly-absent value with a string
literal. -/
def isStr (v : Option JVal) (s : String) : Bool :=
  match v with
  | some (.str t) => t == s
  | _ => false

/-- JS typeof-is-object test (true for objects, arrays and `null`). -/
def typeofObject : JVal → Bool
  | .null => true
  | .arr _ => true
  | .obj _ => true
  | _ => false

/-- The guard of the analysis branch (`data.data` truthy and of object type)
branch, on the possibly-absent `data.data`. -/
def isObjectLike : Option JVal → Bool
  | none => false
  | some v => truthy v && typeofObject v

mutual

/-- JS string coercion of a value, as a template literal performs it. -/
def jsStringOfJVal : JVal → String
  | .null => "null"
  | .bool b => cond b "true" "false"
  | .num n => toString n
  | .str s => s
  | .arr xs => String.intercalate "," (jsArrayElemStrings xs)
  | .obj _ => "[object Object]"

/-- Elementwise stringification inside `Array.prototype.join` (`null`
elements join as the empty string). -/
def jsArrayElemStrings : List JVal → List String
  | [] => []
  | .null :: vs => "" :: jsArrayElemStrings vs
  | v :: vs => jsStringOfJVal v :: jsArrayElemStrings vs

end

/-- Template-literal interpolation of a possibly-absent value
(`undefined` prints as "undefined"). -/
def jsTemplateArg : Option JVal → String
  | none => "undefined"
  | some v => jsStringOfJVal v

/-! ### Speaker-label text helpers

`extractSpeakerFromText` and the prefix-removal helper use the regex
`/^(Speaker \d+):\s*/`; we implement the match directly on the character
list.  `matchSpeakerHead` returns the digit run (capture group 1 minus the
fixed "Speaker " head) and the remainder after the colon. -/
def matchSpeakerHead : List Char → Option (List Char × List Char)
  | 'S' :: 'p' :: 'e' :: 'a' :: 'k' :: 'e' :: 'r' :: ' ' :: rest =>
    match rest.takeWhile Char.isDigit, rest.dropWhile Char.isDigit with
    | [], _ => none
    | ds, ':' :: rest2 => some (ds, rest2)
    | _, _ => none
  | _ => none

/-- Function `extractSpeakerFromText`: first capture of the speaker-label
regex, if any. -/
def extractSpeakerFromText (s : String) : Option String :=
  match matchSpeakerHead s.data with
  | some (ds, _) =>
    some (String.mk ('S' :: 'p' :: 'e' :: 'a' :: 'k' :: 'e' :: 'r' :: ' ' :: ds))
  | none => none

/-- The prefix-removal helper of the source (removeSpeaker...): strips a leading
`Speaker <digits>:` label and following whitespace, else returns the text
unchanged. -/
def removeSpeakerLabel (s : String) : String :=
  match matchSpeakerHead s.data with
  | some (_, rest) => String.mk (rest.dropWhile Char.isWhitespace)
  | none => s

/-! ### Page state -/
/-- A line of the live transcript (interface `TranscriptLine`): `id` and
`timestamp` both come from the clock at dispatch time (`Date.now()` /
`new Date()`), modelled as the integer millisecond reading. -/
structure TranscriptLine where
  id : ℤ
  text : Option JVal
  speaker : Option JVal
  timestamp : ℤ

/-- The analysis snapshot (state `analysis`).  The setter stores whatever
JSON arrived (TS types are erased at runtime), so the fields are raw
values. -/
structure AnalysisData where
  symptoms : JVal
  suggestions : JVal
  severity : JVal
  diagnoses : JVal

/-- The default severity object `{ level: "Low", rationale: "" }`
(written with escaped braces in this comment: \x7b level, rationale \x7d). -/
def defaultSeverity : JVal := .obj [("level", .str "Low"), ("rationale", .str "")]

/-- Initial `analysis` state. -/
def initialAnalysis : AnalysisData :=
  { symptoms := .arr [], suggestions := .arr [],
    severity := defaultSeverity, diagnoses := .arr [] }

/-- The page state touched by the dispatcher: `transcript`, `analysis`,
`error`. -/
structure SessionState where
  transcript : List TranscriptLine
  analysis : AnalysisData
  error : Option String

/-- Initial page state. -/
def initialState : SessionState :=
  { transcript := [], analysis := initialAnalysis, error := none }

/-! ### The `onmessage` dispatcher

`setupWebSocket` installs `newWs.onmessage`, a chain of tests on the parsed
message.  The two legacy branches (`data.event === "transcription"` and the
bare `data.text` fallback) call the string methods
`text.match` / `text.replace`; when `data.text` is not a string those throw
a `TypeError` which the surrounding try/catch swallows, so no line is
appended — `legacyAppend` returns the state unchanged in that case. -/
/-- The shared body of the two legacy transcript branches: speaker is
`data.speaker || extractSpeakerFromText(data.text)`, the text is stored with
the speaker label stripped, and the id/timestamp come from the clock. -/
def legacyAppend (now : ℤ) (data : JVal) (st : SessionState) : SessionState :=
  match getField data "text" with
  | some (.str s) =>
    let sp : Option JVal :=
      if truthyOpt (getField data "speaker") then getField data "speaker"
      else match extractSpeakerFromText s with
        | some lab => some (.str lab)
        | none => none
    { st with transcript := st.transcript ++
        [{ id := now, text := some (.str (removeSpeakerLabel s)),
           speaker := sp, timestamp := now }] }
  | _ => st

/-- The parsed-message dispatcher (`newWs.onmessage` after the `"pong"`
test and `JSON.parse`), at clock reading `now`. -/
def handleParsedMessage (now : ℤ) (data : JVal) (st : SessionState) :
    SessionState :=
  if isStr (getField data "type") "transcript" then
    let speakerNumber : ℤ :=
      match getField data "speaker" with
      | some (.num n) => n
      | _ => 0
    let speakerLabel := "Speaker " ++ toString (speakerNumber + 1)
    { st with transcript := st.transcript ++
        [{ id := now, text := getField data "text",
           speaker := some (.str speakerLabel), timestamp := now }] }
  else if isStr (getField data "type") "analysis" then
    match getField data "data" with
    | some dd =>
      if truthy dd && typeofObject dd then
        { st with analysis :=
            { symptoms := jsOr (getField dd "symptoms") (.arr [])
              suggestions := jsOr (getField dd "suggestions") (.arr [])
              severity := jsOr (getField dd "severity") defaultSeverity
              diagnoses := jsOr (getField dd "diagnoses") (.arr []) } }
      else st
    | none => st
  else if isStr (getField data "type") "error" then
    { st with error := some ("Error: " ++ jsTemplateArg (getField data "message")) }
  else if isStr (getField data "status") "ready" ||
      isStr (getField data "type") "status" then
    st
  else if isStr (getField data "event") "transcription" then
    legacyAppend now data st
  else if truthyOpt (getField data "text") then
    legacyAppend now data st
  else
    st

/-- The raw `onmessage` handler: the bare `"pong"` frame is answered before
any parsing; `JSON.parse` is abstracted by the `parse` argument, with
`none` standing for a parse exception (caught and dropped by the
try/catch). -/
def handleRawMessage (parse : String → Option JVal) (now : ℤ) (raw : String)
    (st : SessionState) : SessionState :=
  if raw = "pong" then st
  else
    match parse raw with
    | none => st
    | some data => handleParsedMessage now data st

/-- Dispatch a sequence of parsed messages, each tagged with its clock
reading. -/
def runMessages (msgs : List (ℤ × JVal)) (st : SessionState) : SessionState :=
  msgs.foldl (fun s m => handleParsedMessage m.1 m.2 s) st

/-- The identifiers of the transcript lines, in display (append) order. -/
def transcriptIds (st : SessionState) : List ℤ :=
  st.transcript.map TranscriptLine.id

/-- A concrete `transcript` message with speaker index 0. -/
def transcriptMsg0 : JVal :=
  .obj [("type", .str "transcript"), ("text", .str "Hello"),
    ("speaker", .num 0)]

/-- A concrete `transcript` message carrying no `speaker` field. -/
def transcriptMsgNoSpeaker : JVal :=
  .obj [("type", .str "transcript"), ("text", .str "Hi")]

/-- A concrete `analysis` message whose `data` object has no `severity`
sub-field. -/
def analysisMsgNoSeverity : JVal :=
  .obj [("type", .str "analysis"),
    ("data", .obj [("symptoms", .arr [.str "headache"])])]

/-- A concrete `analysis` message whose `data` field is a string. -/
def analysisMsgBadData : JVal :=
  .obj [("type", .str "analysis"), ("data", .str "oops")]

/-! ## The close handler (`newWs.onclose`) and `handleStop` -/
/-- A WebSocket `CloseEvent`: closure code and the clean-closure flag. -/
structure WSCloseEvent where
  code : ℤ
  wasClean : Bool

/-- The error banner text set on an unexpected closure. -/
def closeUnexpectedMsg : String := "WebSocket connection closed unexpectedly."

/-- Handler `newWs.onclose`: sets the connection-lost error state iff the closure
was not clean. -/
def onCloseUpdate (ev : WSCloseEvent) (st : SessionState) : SessionState :=
  if !ev.wasClean then { st with error := some closeUnexpectedMsg } else st

/-- The close performed by `handleStop`:
`websocketRef.current.close(1000, "Client stopped recording")` — a normal
closure, whose close event is clean with code 1000. -/
def handleStopCloseEvent : WSCloseEvent := { code := 1000, wasClean := true }

/-! ## Audio frame sending and backpressure (`setupAudioProcessing`) -/
/-- Constant `recorderBufferSize = 4096`: samples per `ScriptProcessorNode`
frame. -/
def recorderBufferSize : Nat := 4096

/-- The send-side backpressure check
`websocket.bufferedAmount < recorderBufferSize * 2`: `true` means the frame
is sent, `false` means it is dropped and the buffer-full warning is
logged. -/
def sendFrameDecision (bufferedAmount : Nat) : Bool :=
  bufferedAmount < recorderBufferSize * 2

/-- The frames actually sent over the socket, given the outstanding
buffered byte count observed before each frame: a frame is either encoded
and sent whole, or dropped — never queued. -/
def framesActuallySent (buffered : Nat → Nat) (frames : List (List ℚ)) :
    List (List ℤ) :=
  frames.enum.filterMap fun p =>
    if sendFrameDecision (buffered p.1) then some (p.2.map encodeSample)
    else none

/-! ## `handleRecord`: connection wait loop and demo fallback -/
/-- WebSocket ready states. -/
inductive WSReadyState where
  | connecting
  | opened
  | closing
  | closed
deriving DecidableEq

/-- Constant `MAX_RETRIES = 30` polling attempts. -/
def MAX_RETRIES : Nat := 30

/-- Constant `RETRY_DELAY_MS = 1000`: the fixed polling interval in
milliseconds. -/
def RETRY_DELAY_MS : Nat := 1000

/-- The wait loop of `handleRecord`
(`while readyState !== OPEN && retries > 0`), over the sequence `obs` of
ready states observed at successive polls: returns the index of the
observation the final `readyState !== OPEN` check reads. -/
def waitForOpen (obs : Nat → WSReadyState) : Nat → Nat → Nat
  | k, 0 => k
  | k, r + 1 => if obs k = .opened then k else waitForOpen obs (k + 1) r

/-- The scripted demo conversation of `simulateTranscription`
(text, speaker). -/
def mockConversation : List (String × String) :=
  [("Good morning. What brings you in today?", "Doctor"),
   ("Hello doctor, I\u0027ve been having some headaches lately.", "Patient"),
   ("I\u0027m sorry to hear that. Can you tell me more about these headaches? When do they typically occur?",
    "Doctor"),
   ("They usually start in the morning and get worse throughout the day.",
    "Patient"),
   ("Are you experiencing any other symptoms along with the headaches?",
    "Doctor"),
   ("I\u0027ve also been feeling a bit dizzy sometimes.", "Patient"),
   ("How long have you been experiencing these symptoms?", "Doctor"),
   ("Yes, it\u0027s been going on for about two weeks now.", "Patient"),
   ("Have you tried any medications to alleviate the pain?", "Doctor"),
   ("I\u0027ve tried taking over-the-counter pain medication but it doesn\u0027t help much.",
    "Patient")]

/-- The fixed emission interval of `simulateTranscription`, milliseconds. -/
def mockIntervalMs : Nat := 2500

/-- Observable outcome of `handleRecord` after the connection wait. -/
structure RecordOutcome where
  micStopped : Bool
  usedDemoFallback : Bool
  framesSent : List (List ℤ)
  scripted : List (String × String)
deriving DecidableEq

/-- Model of `handleRecord` after `setupWebSocket`: polls the socket up to
`MAX_RETRIES` times; if the final check still does not see OPEN it stops
the microphone tracks, switches to `simulateTranscription` (the scripted
sequence) and returns before any audio pipeline is created; otherwise the
audio pipeline sends the captured frames subject to backpressure. -/
def handleRecordModel (obs : Nat → WSReadyState) (buffered : Nat → Nat)
    (frames : List (List ℚ)) : RecordOutcome :=
  if obs (waitForOpen obs 0 MAX_RETRIES) = .opened then
    { micStopped := false, usedDemoFallback := false,
      framesSent := framesActuallySent buffered frames, scripted := [] }
  else
    { micStopped := true, usedDemoFallback := true,
      framesSent := [], scripted := mockConversation }

/-! ## Theorems -/

lemma clampUnit_le_one (x : ℚ) : clampUnit x ≤ 1 := by
  unfold clampUnit
  exact max_le (by norm_num) (min_le_left _ _)

lemma neg_one_le_clampUnit (x : ℚ) : -1 ≤ clampUnit x := le_max_left _ _

lemma jsTrunc_le {q : ℚ} (h : q ≤ 32767) : jsTrunc q ≤ 32767 := by
  unfold jsTrunc
  split
  · have h1 : (⌊q⌋ : ℤ) ≤ ⌊(32767 : ℚ)⌋ := Int.floor_le_floor h
    simpa using h1
  · have h0 : q ≤ 0 := le_of_not_le (by assumption)
    have h1 : (⌈q⌉ : ℤ) ≤ ⌈(0 : ℚ)⌉ := Int.ceil_le_ceil h0
    simp at h1
    omega

lemma le_jsTrunc {q : ℚ} (h : -32767 ≤ q) : -32767 ≤ jsTrunc q := by
  unfold jsTrunc
  split
  · have h0 : (0 : ℚ) ≤ q := by assumption
    have h1 : (0 : ℤ) ≤ ⌊q⌋ := Int.floor_nonneg.mpr h0
    omega
  · have h1 : (⌈(-32767 : ℚ)⌉ : ℤ) ≤ ⌈q⌉ := Int.ceil_le_ceil h
    have h2 : (⌈(-32767 : ℚ)⌉ : ℤ) = -32767 := by
      rw [show (-32767 : ℚ) = ((-32767 : ℤ) : ℚ) from by norm_num]
      exact Int.ceil_intCast _
    omega

/-- In range, the int16 wrap is the identity: `toInt16` is plain truncation. -/
lemma toInt16_eq_jsTrunc {q : ℚ} (h1 : -32767 ≤ q) (h2 : q ≤ 32767) :
    toInt16 q = jsTrunc q := by
  have hlo := le_jsTrunc h1
  have hhi := jsTrunc_le h2
  unfold toInt16
  split <;> omega

lemma clampUnit_mul_le (x : ℚ) : clampUnit x * 32767 ≤ 32767 := by
  have h := mul_le_mul_of_nonneg_right (clampUnit_le_one x)
    (show (0 : ℚ) ≤ 32767 by norm_num)
  simpa using h

lemma le_clampUnit_mul (x : ℚ) : -32767 ≤ clampUnit x * 32767 := by
  have h := mul_le_mul_of_nonneg_right (neg_one_le_clampUnit x)
    (show (0 : ℚ) ≤ 32767 by norm_num)
  have h2 : (-1 : ℚ) * 32767 = -32767 := by norm_num
  linarith

lemma encodeSample_eq_trunc (x : ℚ) :
    encodeSample x = jsTrunc (clampUnit x * 32767) := by
  unfold encodeSample
  exact toInt16_eq_jsTrunc (le_clampUnit_mul x) (clampUnit_mul_le x)

lemma encodeSample_neg_one : encodeSample (-1) = -32767 := by
  have hc : clampUnit (-1) * 32767 = (-32767 : ℚ) := by
    unfold clampUnit; norm_num
  rw [encodeSample_eq_trunc, hc]
  unfold jsTrunc
  rw [if_neg (by norm_num)]
  rw [show (-32767 : ℚ) = ((-32767 : ℤ) : ℚ) from by norm_num]
  exact Int.ceil_intCast _

lemma encodeSample_zero : encodeSample 0 = 0 := by
  have hc : clampUnit 0 * 32767 = (0 : ℚ) := by
    unfold clampUnit; norm_num
  rw [encodeSample_eq_trunc, hc]
  unfold jsTrunc
  rw [if_pos (by norm_num)]
  norm_num

lemma encodeSample_one : encodeSample 1 = 32767 := by
  have hc : clampUnit 1 * 32767 = (32767 : ℚ) := by
    unfold clampUnit; norm_num
  rw [encodeSample_eq_trunc, hc]
  unfold jsTrunc
  rw [if_pos (by norm_num)]
  norm_num

/-- C1 (counterexample): the encoder does not round to nearest.  At input
`x = 1/2` the code stores `trunc(16383.5) = 16383` into the `Int16Array`,
while the claimed `round(clamp(x,-1,1)*32767)` is `16384`. -/
theorem c1_counterexample :
    encodeSample (1/2) = 16383 ∧ specEncodeSample (1/2) = 16384 ∧
    encodeSample (1/2) ≠ specEncodeSample (1/2) := by
  have hc : clampUnit (1/2) * 32767 = (32767 / 2 : ℚ) := by
    unfold clampUnit; norm_num
  have h1 : encodeSample (1/2) = 16383 := by
    rw [encodeSample_eq_trunc, hc]
    unfold jsTrunc
    rw [if_pos (by norm_num)]
    norm_num
  have h2 : specEncodeSample (1/2) = 16384 := by
    unfold specEncodeSample
    rw [hc]
    norm_num [round_eq]
  exact ⟨h1, h2, by omega⟩

/-- C1 (amended): the per-sample encoder produces the ECMAScript ToInt16
conversion of `clamp(x,-1,1) * 32767`, which truncates toward zero (not
round-to-nearest); the result always lies in `[-32767, 32767]`, and the
boundary values encode as `-1.0 ↦ -32767`, `0 ↦ 0`, `1.0 ↦ 32767`. -/
theorem c1_encoder_truncates (x : ℚ) :
    encodeSample x = jsTrunc (clampUnit x * 32767) ∧
    -32767 ≤ encodeSample x ∧ encodeSample x ≤ 32767 ∧
    encodeSample (-1) = -32767 ∧ encodeSample 0 = 0 ∧
    encodeSample 1 = 32767 := by
  refine ⟨encodeSample_eq_trunc x, ?_, ?_, encodeSample_neg_one,
    encodeSample_zero, encodeSample_one⟩
  · rw [encodeSample_eq_trunc]
    exact le_jsTrunc (le_clampUnit_mul x)
  · rw [encodeSample_eq_trunc]
    exact jsTrunc_le (clampUnit_mul_le x)

lemma isStr_self (s : String) : isStr (some (.str s)) s = true := by
  simp [isStr]

/-- C6: a `transcript` message whose `speaker` field is the integer `n`
appends exactly one transcript line, whose speaker label is the 1-based
`"Speaker " ++ toString (n + 1)`; for speaker index 0 the label is
`"Speaker 1"`. -/
theorem c6_speaker_label (now : ℤ) (data : JVal) (st : SessionState) (n : ℤ)
    (htype : getField data "type" = some (.str "transcript"))
    (hsp : getField data "speaker" = some (.num n)) :
    (handleParsedMessage now data st).transcript = st.transcript ++
      [{ id := now, text := getField data "text",
         speaker := some (.str ("Speaker " ++ toString (n + 1))),
         timestamp := now }] ∧
    (n = 0 →
      (handleParsedMessage now data st).transcript = st.transcript ++
        [{ id := now, text := getField data "text",
           speaker := some (.str "Speaker 1"), timestamp := now }]) := by
  have hmain : (handleParsedMessage now data st).transcript = st.transcript ++
      [{ id := now, text := getField data "text",
         speaker := some (.str ("Speaker " ++ toString (n + 1))),
         timestamp := now }] := by
    unfold handleParsedMessage
    rw [htype, hsp, isStr_self]
    simp
  refine ⟨hmain, fun h0 => ?_⟩
  subst h0
  simpa using hmain

/-- C6 witness: a concrete `transcript` message with speaker index 0. -/
theorem c6_witness :
    getField transcriptMsg0 "type" = some (.str "transcript") ∧
    getField transcriptMsg0 "speaker" = some (.num 0) ∧
    (handleParsedMessage 7 transcriptMsg0 initialState).transcript =
      initialState.transcript ++
        [{ id := 7, text := some (.str "Hello"),
           speaker := some (.str "Speaker 1"), timestamp := 7 }] :=
  ⟨rfl, rfl,
    (c6_speaker_label 7 transcriptMsg0 initialState 0 rfl rfl).2 rfl⟩

/-- C9: a `transcript` message whose `speaker` field is absent or not a
number gets speaker index 0, so the appended line carries the label
`"Speaker 1"`. -/
theorem c9_speaker_default (now : ℤ) (data : JVal) (st : SessionState)
    (htype : getField data "type" = some (.str "transcript"))
    (hsp : ∀ n : ℤ, getField data "speaker" ≠ some (.num n)) :
    (handleParsedMessage now data st).transcript = st.transcript ++
      [{ id := now, text := getField data "text",
         speaker := some (.str "Speaker 1"), timestamp := now }] := by
  unfold handleParsedMessage
  rw [htype, isStr_self]
  have hnum :
      (match getField data "speaker" with
        | some (.num n) => n
        | _ => (0 : ℤ)) = 0 := by
    rcases hv : getField data "speaker" with _ | v
    · rfl
    · cases v with
      | num n => exact absurd hv (hsp n)
      | null => rfl
      | bool b => rfl
      | str s => rfl
      | arr xs => rfl
      | obj fs => rfl
  simp only [hnum]
  simp
  rfl

/-- C9 witness: a concrete `transcript` message without a `speaker` field. -/
theorem c9_witness :
    getField transcriptMsgNoSpeaker "type" = some (.str "transcript") ∧
    (handleParsedMessage 3 transcriptMsgNoSpeaker initialState).transcript =
      initialState.transcript ++
        [{ id := 3, text := some (.str "Hi"),
           speaker := some (.str "Speaker 1"), timestamp := 3 }] :=
  ⟨rfl, c9_speaker_default 3 transcriptMsgNoSpeaker initialState rfl
    (fun _ h => Option.noConfusion h)⟩

lemma isStr_analysis_ne_transcript :
    isStr (some (.str "analysis")) "transcript" = false := by decide

/-- C5: an `analysis` message carrying an object-valued `data` field
replaces the whole analysis snapshot — the result is computed from the
incoming fields alone (the previous snapshot does not appear), with the
documented defaults substituted for each missing or falsy sub-field; in
particular a missing `severity` yields the default severity object. -/
theorem c5_analysis_replace (now : ℤ) (data : JVal) (st : SessionState)
    (fields : List (String × JVal))
    (htype : getField data "type" = some (.str "analysis"))
    (hdata : getField data "data" = some (.obj fields)) :
    (handleParsedMessage now data st).analysis =
      { symptoms := jsOr (lookupField fields "symptoms") (.arr [])
        suggestions := jsOr (lookupField fields "suggestions") (.arr [])
        severity := jsOr (lookupField fields "severity") defaultSeverity
        diagnoses := jsOr (lookupField fields "diagnoses") (.arr []) } ∧
    (lookupField fields "severity" = none →
      (handleParsedMessage now data st).analysis.severity =
        .obj [("level", .str "Low"), ("rationale", .str "")]) := by
  have hmain : (handleParsedMessage now data st).analysis =
      { symptoms := jsOr (lookupField fields "symptoms") (.arr [])
        suggestions := jsOr (lookupField fields "suggestions") (.arr [])
        severity := jsOr (lookupField fields "severity") defaultSeverity
        diagnoses := jsOr (lookupField fields "diagnoses") (.arr []) } := by
    unfold handleParsedMessage
    rw [htype, isStr_analysis_ne_transcript, isStr_self, hdata]
    simp [truthy, typeofObject, getField]
  refine ⟨hmain, fun hsev => ?_⟩
  rw [hmain]
  simp [hsev, jsOr, defaultSeverity]

/-- C5 witness: a concrete `analysis` message missing `severity` gets the
default severity object, whatever the previous snapshot was. -/
theorem c5_witness :
    getField analysisMsgNoSeverity "type" = some (.str "analysis") ∧
    getField analysisMsgNoSeverity "data" =
      some (.obj [("symptoms", .arr [.str "headache"])]) ∧
    lookupField [("symptoms", JVal.arr [.str "headache"])] "severity" = none ∧
    (handleParsedMessage 1 analysisMsgNoSeverity initialState).analysis.severity =
      .obj [("level", .str "Low"), ("rationale", .str "")] :=
  ⟨rfl, rfl, rfl,
    (c5_analysis_replace 1 analysisMsgNoSeverity initialState
      [("symptoms", .arr [.str "headache"])] rfl rfl).2 rfl⟩

/-- C10: an `analysis` message whose `data` field is missing or fails the
object-type guard on `data.data` leaves the entire page
state — in particular the analysis snapshot — unchanged. -/
theorem c10_analysis_invalid_data (now : ℤ) (data : JVal) (st : SessionState)
    (htype : getField data "type" = some (.str "analysis"))
    (hdata : isObjectLike (getField data "data") = false) :
    handleParsedMessage now data st = st ∧
    (handleParsedMessage now data st).analysis = st.analysis := by
  have hmain : handleParsedMessage now data st = st := by
    unfold handleParsedMessage
    rw [htype, isStr_analysis_ne_transcript, isStr_self]
    rcases hv : getField data "data" with _ | v
    · simp
    · rw [hv] at hdata
      simp only [isObjectLike] at hdata
      simp [hdata]
  exact ⟨hmain, by rw [hmain]⟩

/-- C10 witness: a concrete `analysis` message with a string `data` field
leaves the state unchanged. -/
theorem c10_witness :
    getField analysisMsgBadData "type" = some (.str "analysis") ∧
    isObjectLike (getField analysisMsgBadData "data") = false ∧
    handleParsedMessage 2 analysisMsgBadData initialState = initialState :=
  ⟨rfl, rfl,
    (c10_analysis_invalid_data 2 analysisMsgBadData initialState rfl rfl).1⟩

/-- C8: a raw frame that is the liveness reply `"pong"` is answered before
any parsing — the resulting state does not depend on the parser at all —
and a raw frame the parser rejects is dropped, leaving transcript,
analysis and error state unchanged. -/
theorem c8_unparseable_dropped (parse : String → Option JVal) (now : ℤ)
    (raw : String) (st : SessionState)
    (h : raw = "pong" ∨ parse raw = none) :
    handleRawMessage parse now raw st = st := by
  unfold handleRawMessage
  rcases h with h | h
  · rw [if_pos h]
  · split
    · rfl
    · rw [h]

/-- C8 witness: the `"pong"` frame under a parser that accepts nothing, and
a rejected frame, both leave the initial state unchanged. -/
theorem c8_witness :
    handleRawMessage (fun _ => none) 4 "pong" initialState = initialState ∧
    handleRawMessage (fun _ => none) 4 "garbage" initialState = initialState :=
  ⟨c8_unparseable_dropped (fun _ => none) 4 "pong" initialState (Or.inl rfl),
   c8_unparseable_dropped (fun _ => none) 4 "garbage" initialState
     (Or.inr rfl)⟩

/-- C7: the close handler sets the connection-lost error exactly when the
closure is non-clean, and the normal-code (1000) clean closure performed by
`handleStop` leaves the state unchanged. -/
theorem c7_close_error (ev : WSCloseEvent) (st : SessionState) :
    ((onCloseUpdate ev st).error =
      if ev.wasClean then st.error else some closeUnexpectedMsg) ∧
    onCloseUpdate handleStopCloseEvent st = st := by
  constructor
  · unfold onCloseUpdate
    rcases hv : ev.wasClean <;> simp [hv]
  · rfl

/-! ## Transcript identifiers (C2)

Every transcript-appending branch of the dispatcher uses `Date.now()` as
the line id, so within one dispatch a message appends at most one line and
its id is the clock reading. -/
/-- One dispatch either leaves the transcript unchanged or appends exactly
one line whose id is the clock reading. -/
lemma handleParsedMessage_transcript_shape (now : ℤ) (data : JVal)
    (st : SessionState) :
    (handleParsedMessage now data st).transcript = st.transcript ∨
    ∃ line : TranscriptLine,
      (handleParsedMessage now data st).transcript =
        st.transcript ++ [line] ∧ line.id = now := by
  unfold handleParsedMessage legacyAppend
  repeat' split
  all_goals first
    | exact Or.inl rfl
    | exact Or.inr ⟨_, rfl, rfl⟩

lemma runMessages_cons (t : ℤ) (m : JVal) (rest : List (ℤ × JVal))
    (st : SessionState) :
    runMessages ((t, m) :: rest) st =
      runMessages rest (handleParsedMessage t m st) := rfl

/-- C2 (counterexample): two `transcript` messages dispatched at the same
millisecond (`Date.now() = 5` for both) get equal ids — the id sequence is
`[5, 5]`, neither strictly increasing nor duplicate-free. -/
theorem c2_counterexample :
    transcriptIds
        (runMessages [(5, transcriptMsg0), (5, transcriptMsg0)]
          initialState) = [5, 5] ∧
    ¬ List.Pairwise (· < ·)
        (transcriptIds
          (runMessages [(5, transcriptMsg0), (5, transcriptMsg0)]
            initialState)) ∧
    ¬ (transcriptIds
        (runMessages [(5, transcriptMsg0), (5, transcriptMsg0)]
          initialState)).Nodup := by
  have h : transcriptIds
      (runMessages [(5, transcriptMsg0), (5, transcriptMsg0)]
        initialState) = [5, 5] := rfl
  refine ⟨h, ?_, ?_⟩ <;> rw [h] <;> decide

/-- Invariant propagation: dispatching messages with strictly increasing
clock readings, all above every id already present, keeps the id list
strictly sorted. -/
lemma runMessages_ids_sorted (msgs : List (ℤ × JVal)) (st : SessionState)
    (hst : List.Pairwise (· < ·) (transcriptIds st))
    (hbound : ∀ i ∈ transcriptIds st, ∀ p ∈ msgs, i < p.1)
    (hmsgs : List.Pairwise (· < ·) (msgs.map Prod.fst)) :
    List.Pairwise (· < ·) (transcriptIds (runMessages msgs st)) := by
  induction msgs generalizing st with
  | nil => exact hst
  | cons p rest ih =>
    obtain ⟨t, m⟩ := p
    rw [List.map_cons] at hmsgs
    rcases List.pairwise_cons.mp hmsgs with ⟨hhead, htail⟩
    rw [runMessages_cons]
    rcases handleParsedMessage_transcript_shape t m st with h | ⟨line, h, hid⟩
    · apply ih
      · unfold transcriptIds
        rw [h]
        exact hst
      · intro i hi q hq
        unfold transcriptIds at hi
        rw [h] at hi
        exact hbound i hi q (List.mem_cons_of_mem _ hq)
      · exact htail
    · apply ih
      · unfold transcriptIds
        rw [h, List.map_append, List.pairwise_append]
        refine ⟨hst, by simp, ?_⟩
        intro i hi j hj
        simp only [List.map_cons, List.map_nil, List.mem_singleton] at hj
        subst hj
        rw [hid]
        exact hbound i hi (t, m) (List.mem_cons_self _ _)
      · intro i hi q hq
        unfold transcriptIds at hi
        rw [h, List.map_append] at hi
        rcases List.mem_append.mp hi with hi | hi
        · exact hbound i hi q (List.mem_cons_of_mem _ hq)
        · simp only [List.map_cons, List.map_nil, List.mem_singleton] at hi
          subst hi
          rw [hid]
          exact hhead q.1 (List.mem_map_of_mem Prod.fst hq)
      · exact htail

/-- C2 (amended): the dispatcher stamps each appended line with the clock
reading (`Date.now()`), so transcript ids are unique and strictly
increasing in append order provided the dispatch clock readings of the
message sequence are strictly increasing; at a shared millisecond
(`c2_counterexample`) ids repeat. -/
theorem c2_ids_increasing (msgs : List (ℤ × JVal))
    (h : List.Pairwise (· < ·) (msgs.map Prod.fst)) :
    List.Pairwise (· < ·) (transcriptIds (runMessages msgs initialState)) ∧
    (transcriptIds (runMessages msgs initialState)).Nodup := by
  have hp := runMessages_ids_sorted msgs initialState
    (by simp [transcriptIds, initialState])
    (by simp [transcriptIds, initialState]) h
  exact ⟨hp, hp.imp ne_of_lt⟩

/-- C2 witness: two `transcript` messages at strictly increasing clock
readings 1 and 2 yield strictly increasing, duplicate-free ids. -/
theorem c2_witness :
    List.Pairwise (· < ·)
      (([((1 : ℤ), transcriptMsg0), (2, transcriptMsg0)]).map Prod.fst) ∧
    (List.Pairwise (· < ·)
        (transcriptIds
          (runMessages [(1, transcriptMsg0), (2, transcriptMsg0)]
            initialState)) ∧
      (transcriptIds
        (runMessages [(1, transcriptMsg0), (2, transcriptMsg0)]
          initialState)).Nodup) :=
  ⟨by decide, c2_ids_increasing [(1, transcriptMsg0), (2, transcriptMsg0)]
    (by decide)⟩

/-- C4: whenever the outstanding buffered byte count exceeds the threshold
of twice `recorderBufferSize`, the backpressure check fails, and the frame
is dropped (it does not appear among the sent frames), with the warning
path taken. -/
theorem c4_backpressure_drop (b : Nat) (f : List ℚ)
    (h : 2 * recorderBufferSize < b) :
    sendFrameDecision b = false ∧
    framesActuallySent (fun _ => b) [f] = [] := by
  have hd : sendFrameDecision b = false := by
    unfold sendFrameDecision
    simp only [decide_eq_false_iff_not]
    unfold recorderBufferSize at h ⊢
    omega
  refine ⟨hd, ?_⟩
  unfold framesActuallySent
  simp [hd]

/-- C4 witness: at 10000 buffered bytes (threshold 8192) the frame is
dropped. -/
theorem c4_witness :
    2 * recorderBufferSize < 10000 ∧
    (sendFrameDecision 10000 = false ∧
      framesActuallySent (fun _ => 10000) [[]] = []) :=
  ⟨by decide, c4_backpressure_drop 10000 [] (by decide)⟩

lemma waitForOpen_le (obs : Nat → WSReadyState) (k r : Nat) :
    waitForOpen obs k r ≤ k + r := by
  induction r generalizing k with
  | zero => simp [waitForOpen]
  | succ r ih =>
    unfold waitForOpen
    split
    · omega
    · have := ih (k + 1)
      omega

/-- C3: if the socket is never observed OPEN during the 30 polling
attempts (nor at the final check), `handleRecord` stops the microphone
stream, falls back to the scripted demo transcription, and sends no audio
frame at all. -/
theorem c3_timeout_fallback (obs : Nat → WSReadyState) (buffered : Nat → Nat)
    (frames : List (List ℚ))
    (h : ∀ i, i ≤ MAX_RETRIES → obs i ≠ .opened) :
    handleRecordModel obs buffered frames =
      { micStopped := true, usedDemoFallback := true,
        framesSent := [], scripted := mockConversation } := by
  unfold handleRecordModel
  have hk : waitForOpen obs 0 MAX_RETRIES ≤ MAX_RETRIES := by
    have := waitForOpen_le obs 0 MAX_RETRIES
    omega
  rw [if_neg (h _ hk)]

/-- C3 witness: a socket stuck in CONNECTING forever. -/
theorem c3_witness :
    handleRecordModel (fun _ => .connecting) (fun _ => 0) [[1]] =
      { micStopped := true, usedDemoFallback := true,
        framesSent := [], scripted := mockConversation } :=
  c3_timeout_fallback (fun _ => .connecting) (fun _ => 0) [[1]]
    (fun _ _ h => WSReadyState.noConfusion h)
